import Mathlib

/-!
Shallow embedding of the ZenMaster breathing-session core: the pure
event-sourced kernel (`reduce`, `defaultSafetyGuard`, `dispatch`), the
adaptive state estimator, and the safety registry update performed on
session completion.  Timestamps and durations are rationals (JS numbers
used for clock arithmetic); belief-state quantities are reals.
-/

namespace ZenMaster

open Classical

noncomputable section

/-- The `BreathPhase` from types.ts. -/
inductive BreathPhase where
  | inhale
  | holdIn
  | exhale
  | holdOut
deriving DecidableEq, Repr

/-- The `RuntimeStatus` from PureZenBKernel.ts. -/
inductive RuntimeStatus where
  | IDLE
  | RUNNING
  | PAUSED
  | HALTED
  | SAFETY_LOCK
deriving DecidableEq, Repr

/-- The `BeliefState` from types.ts (point estimates, variances, diagnostics). -/
structure BeliefState where
  arousal : ℝ
  attention : ℝ
  rhythm_alignment : ℝ
  arousal_variance : ℝ
  attention_variance : ℝ
  rhythm_variance : ℝ
  prediction_error : ℝ
  confidence : ℝ

/-- The `user_interaction` variants of `Observation`. -/
inductive UserInteraction where
  | pause
  | resume
  | touch
deriving DecidableEq, Repr

/-- The `visibilty_state` variants of `Observation` (spelling as in types.ts). -/
inductive VisibilityState where
  | visible
  | hidden
deriving DecidableEq, Repr

/-- The `Observation` from types.ts; optional fields become `Option`. -/
structure Observation where
  timestamp : ℚ
  delta_time : ℚ
  user_interaction : Option UserInteraction
  visibilty_state : VisibilityState
  heart_rate : Option ℝ
  hr_confidence : Option ℝ

/-- The `SafetyProfile` from types.ts (field spellings as in the source). -/
structure SafetyProfile where
  patternId : String
  cummulative_stress_score : ℤ
  last_incident_timestamp : ℚ
  safety_lock_until : ℚ
  resonance_history : List ℚ
deriving DecidableEq, Repr

/-- The `Record<string, SafetyProfile>`: a total lookup returning `none` for
absent keys, replaced wholesale by `LOAD_SAFETY_REGISTRY`. -/
def SafetyRegistry : Type := String → Option SafetyProfile

/-- The `BreathPattern` from types.ts (presentation-only string fields omitted). -/
structure BreathPattern where
  id : String
  timings : BreathPhase → ℚ
  recommendedCycles : ℕ
  tier : ℕ

/-- Helper building a `timings` record from the four per-phase durations. -/
def mkTimings (inhale holdIn exhale holdOut : ℚ) : BreathPhase → ℚ
  | .inhale => inhale
  | .holdIn => holdIn
  | .exhale => exhale
  | .holdOut => holdOut

/-- The `BREATHING_PATTERNS` from types.ts: lookup by pattern id. -/
def BREATHING_PATTERNS : String → Option BreathPattern
  | "4-7-8" => some ⟨"4-7-8", mkTimings 4 7 8 0, 4, 1⟩
  | "box" => some ⟨"box", mkTimings 4 4 4 4, 6, 1⟩
  | "calm" => some ⟨"calm", mkTimings 4 0 6 0, 8, 1⟩
  | "coherence" => some ⟨"coherence", mkTimings 6 0 6 0, 10, 2⟩
  | "deep-relax" => some ⟨"deep-relax", mkTimings 4 0 8 0, 6, 1⟩
  | "7-11" => some ⟨"7-11", mkTimings 7 0 11 0, 4, 2⟩
  | "awake" => some ⟨"awake", mkTimings 4 0 2 0, 15, 2⟩
  | "triangle" => some ⟨"triangle", mkTimings 4 4 4 0, 8, 1⟩
  | "tactical" => some ⟨"tactical", mkTimings 5 5 5 5, 5, 2⟩
  | "buteyko" => some ⟨"buteyko", mkTimings 3 0 3 4, 12, 3⟩
  | "wim-hof" => some ⟨"wim-hof", mkTimings 2 0 1 15, 30, 3⟩
  | _ => none

/-- The `InterruptionKind`: the `kind` payload of `INTERRUPTION`. -/
inductive InterruptionKind where
  | pause
  | background
deriving DecidableEq, Repr

/-- The `KernelEvent` from types.ts: the closed tagged union. -/
inductive KernelEvent where
  | BOOT (timestamp : ℚ)
  | LOAD_PROTOCOL (patternId : String) (timestamp : ℚ)
  | START_SESSION (timestamp : ℚ)
  | TICK (dt : ℚ) (observation : Observation) (timestamp : ℚ)
  | BELIEF_UPDATE (belief : BeliefState) (timestamp : ℚ)
  | PHASE_TRANSITION (fromPhase : BreathPhase) (toPhase : BreathPhase) (timestamp : ℚ)
  | CYCLE_COMPLETE (count : ℤ) (timestamp : ℚ)
  | INTERRUPTION (kind : InterruptionKind) (timestamp : ℚ)
  | RESUME (timestamp : ℚ)
  | HALT (reason : String) (timestamp : ℚ)
  | SAFETY_INTERDICTION (riskLevel : ℚ) (action : String) (timestamp : ℚ)
  | LOAD_SAFETY_REGISTRY (registry : SafetyRegistry) (timestamp : ℚ)

/-- The `RuntimeState` from PureZenBKernel.ts. -/
structure RuntimeState where
  version : ℕ
  status : RuntimeStatus
  bootTimestamp : ℚ
  lastUpdateTimestamp : ℚ
  pattern : Option BreathPattern
  phase : BreathPhase
  phaseStartTime : ℚ
  phaseDuration : ℚ
  cycleCount : ℤ
  sessionStartTime : ℚ
  belief : BeliefState
  safetyRegistry : SafetyRegistry
  phaseElapsed : ℚ
  sessionDuration : ℚ
  lastObservation : Option Observation

/-- The `createInitialState` from PureZenBKernel.ts; `Date.now()` at boot is
passed in explicitly as `now`. -/
def createInitialState (now : ℚ) : RuntimeState where
  version := 2
  status := .IDLE
  bootTimestamp := now
  lastUpdateTimestamp := now
  pattern := none
  phase := .inhale
  phaseStartTime := 0
  phaseDuration := 0
  cycleCount := 0
  sessionStartTime := 0
  belief := ⟨0.5, 0.5, 0.0, 0.2, 0.2, 0.3, 0.0, 0.0⟩
  safetyRegistry := fun _ => none
  phaseElapsed := 0
  sessionDuration := 0
  lastObservation := none

/-- The pure reducer `reduce(state, event)` from PureZenBKernel.ts. -/
def reduce (state : RuntimeState) (event : KernelEvent) : RuntimeState :=
  match event with
  | .BOOT ts => { state with status := .IDLE, lastUpdateTimestamp := ts }
  | .LOAD_PROTOCOL patternId ts =>
      if state.status = .SAFETY_LOCK then state
      else
        match BREATHING_PATTERNS patternId with
        | none => state
        | some pattern =>
            { state with
              pattern := some pattern
              phase := .inhale
              phaseStartTime := ts
              phaseDuration := pattern.timings .inhale
              cycleCount := 0
              sessionStartTime := 0
              belief := { state.belief with
                          rhythm_alignment := 0, prediction_error := 0, confidence := 0 }
              lastUpdateTimestamp := ts }
  | .START_SESSION ts =>
      match state.pattern with
      | none => state
      | some _ =>
          { state with
            status := .RUNNING
            sessionStartTime := ts
            phaseStartTime := ts
            lastUpdateTimestamp := ts }
  | .INTERRUPTION _ ts =>
      if state.status ≠ .RUNNING then state
      else { state with status := .PAUSED, lastUpdateTimestamp := ts }
  | .RESUME ts =>
      if state.status ≠ .PAUSED then state
      else
        { state with
          status := .RUNNING
          phaseStartTime := state.phaseStartTime + (ts - state.lastUpdateTimestamp)
          lastUpdateTimestamp := ts }
  | .HALT _ ts => { state with status := .HALTED, lastUpdateTimestamp := ts }
  | .SAFETY_INTERDICTION _ _ ts =>
      { state with status := .SAFETY_LOCK, lastUpdateTimestamp := ts }
  | .PHASE_TRANSITION _ toPhase ts =>
      match state.pattern with
      | none => state
      | some pattern =>
          { state with
            phase := toPhase
            phaseStartTime := ts
            phaseDuration := pattern.timings toPhase
            lastUpdateTimestamp := ts }
  | .CYCLE_COMPLETE count ts =>
      { state with cycleCount := count, lastUpdateTimestamp := ts }
  | .BELIEF_UPDATE belief ts =>
      { state with belief := belief, lastUpdateTimestamp := ts }
  | .TICK _ observation ts =>
      { state with lastUpdateTimestamp := ts, lastObservation := some observation }
  | .LOAD_SAFETY_REGISTRY registry ts =>
      { state with safetyRegistry := registry, lastUpdateTimestamp := ts }

/-- The `defaultSafetyGuard` from PureZenBKernel.ts.  The three rules match on
mutually exclusive event kinds, so the sequential `if`s of the source are
rendered as a single match; `Date.now()` inside the guard is `now`. -/
def defaultSafetyGuard (now : ℚ) (event : KernelEvent) (state : RuntimeState) :
    Option KernelEvent :=
  match event with
  | .START_SESSION ts =>
      if state.status = .SAFETY_LOCK then
        some (.SAFETY_INTERDICTION 1 "REJECT_START" now)
      else some (.START_SESSION ts)
  | .BELIEF_UPDATE belief ts =>
      if belief.prediction_error > 0.95 ∧ state.sessionDuration > 10 then
        some (.SAFETY_INTERDICTION 0.95 "EMERGENCY_HALT" now)
      else some (.BELIEF_UPDATE belief ts)
  | .LOAD_PROTOCOL patternId ts =>
      match state.safetyRegistry patternId with
      | some profile =>
          if profile.safety_lock_until > now then
            some (.SAFETY_INTERDICTION 0.8 "PATTERN_LOCKED" now)
          else some (.LOAD_PROTOCOL patternId ts)
      | none => some (.LOAD_PROTOCOL patternId ts)
  | e => some e

/-- The `MAX_LOG_SIZE` from PureZenBKernel.ts. -/
def MAX_LOG_SIZE : ℕ := 1000

/-- The `computeDerivedFields` from PureZenBKernel.ts; `Date.now()` is `now`. -/
def computeDerivedFields (now : ℚ) (state : RuntimeState) : RuntimeState :=
  { state with
    phaseElapsed :=
      if state.status = .RUNNING then max 0 ((now - state.phaseStartTime) / 1000) else 0
    sessionDuration :=
      if state.sessionStartTime > 0 then max 0 ((now - state.sessionStartTime) / 1000) else 0 }

/-- The mutable fields of `PureZenBKernel` that dispatch/subscribe touch:
current state, bounded event log, and the subscriber set (callbacks are
identified by numeric ids; a JS `Set` keeps insertion order, deduplicated). -/
structure Kernel where
  state : RuntimeState
  eventLog : List KernelEvent
  subscribers : List ℕ

/-- The `PureZenBKernel.dispatch` from PureZenBKernel.ts: guard, append to the
bounded log (`push` then `shift` when over capacity), reduce, compute derived
fields, commit.  Middleware and subscriber notification do not change the
kernel fields. -/
def dispatch (now : ℚ) (k : Kernel) (event : KernelEvent) : Kernel :=
  match defaultSafetyGuard now event k.state with
  | none => k
  | some guardedEvent =>
      let log1 := k.eventLog ++ [guardedEvent]
      let log2 := if log1.length > MAX_LOG_SIZE then log1.drop 1 else log1
      let reducedState := reduce k.state guardedEvent
      { state := computeDerivedFields now reducedState
        eventLog := log2
        subscribers := k.subscribers }

/-- JS `Set.add`: append the element unless already present. -/
def setAdd (s : List ℕ) (c : ℕ) : List ℕ := if c ∈ s then s else s ++ [c]

/-- JS `Set.delete`: remove the element. -/
def setDelete (s : List ℕ) (c : ℕ) : List ℕ := s.filter (fun x => x ≠ c)

/-- The `PureZenBKernel.subscribe`: add the callback to the subscriber set and
invoke it once with the current state.  The second component records the
synchronous callback invocations performed, as (callback id, state) pairs. -/
def subscribe (k : Kernel) (c : ℕ) : Kernel × List (ℕ × RuntimeState) :=
  ({ k with subscribers := setAdd k.subscribers c }, [(c, k.state)])

/-- Running the closure returned by `subscribe`: delete the callback. -/
def runUnsubscribe (k : Kernel) (c : ℕ) : Kernel :=
  { k with subscribers := setDelete k.subscribers c }

/-- The `PureZenBKernel.notify`: the callback invocations a notification makes,
as (callback id, state) pairs, in subscriber order. -/
def notifyCalls (k : Kernel) : List (ℕ × RuntimeState) :=
  k.subscribers.map (fun c => (c, k.state))

/-! ### Adaptive state estimator (AdaptiveStateEstimator.ts) -/

/-- The `TargetState` from AdaptiveStateEstimator.ts. -/
structure TargetState where
  arousal : ℝ
  attention : ℝ
  rhythm_alignment : ℝ

/-- The `PROTOCOL_TARGETS` from AdaptiveStateEstimator.ts: a record with the
three named regimes, every other key reading the `default` entry. -/
def PROTOCOL_TARGETS : String → TargetState
  | "parasympathetic" => ⟨0.2, 0.5, 0.8⟩
  | "balanced" => ⟨0.4, 0.7, 0.9⟩
  | "sympathetic" => ⟨0.7, 0.8, 0.6⟩
  | _ => ⟨0.5, 0.6, 0.7⟩

/-- The `PATTERN_TO_TARGET` from AdaptiveStateEstimator.ts. -/
def PATTERN_TO_TARGET : String → Option String
  | "4-7-8" => some "parasympathetic"
  | "deep-relax" => some "parasympathetic"
  | "7-11" => some "parasympathetic"
  | "coherence" => some "balanced"
  | "calm" => some "balanced"
  | "box" => some "balanced"
  | "triangle" => some "balanced"
  | "tactical" => some "balanced"
  | "awake" => some "sympathetic"
  | "wim-hof" => some "sympathetic"
  | "buteyko" => some "parasympathetic"
  | _ => none

/-- The `setProtocol`: the target selected for a bound pattern (or none). -/
def setProtocolTarget (pattern : Option BreathPattern) : TargetState :=
  match pattern with
  | none => PROTOCOL_TARGETS "default"
  | some p => PROTOCOL_TARGETS ((PATTERN_TO_TARGET p.id).getD "default")

/-- Estimator constants (AdaptiveStateEstimator.ts). -/
def PROCESS_NOISE : ℝ := 0.01

/-- The `MEASUREMENT_NOISE_HR` constant. -/
def MEASUREMENT_NOISE_HR : ℝ := 0.15

/-- The `MEASUREMENT_NOISE_CONTEXT` constant. -/
def MEASUREMENT_NOISE_CONTEXT : ℝ := 0.05

/-- The `TAU_AROUSAL` constant (seconds). -/
def TAU_AROUSAL : ℝ := 15.0

/-- The `TAU_ATTENTION` constant (seconds). -/
def TAU_ATTENTION : ℝ := 5.0

/-- The `TAU_RHYTHM` constant (seconds). -/
def TAU_RHYTHM : ℝ := 10.0

/-- The `clamp(value, min = 0, max = 1)` from AdaptiveStateEstimator.ts, at its
default bounds (the only ones the source uses). -/
def clamp01 (value : ℝ) : ℝ := max 0 (min 1 value)

/-- The `predict` from AdaptiveStateEstimator.ts: relax each estimate toward the
target with rate `1 - exp(-dt/tau)` and grow each variance by process noise. -/
def predict (belief : BeliefState) (target : TargetState) (dt : ℝ) : BeliefState :=
  let alpha_arousal := 1 - Real.exp (-dt / TAU_AROUSAL)
  let alpha_attention := 1 - Real.exp (-dt / TAU_ATTENTION)
  let alpha_rhythm := 1 - Real.exp (-dt / TAU_RHYTHM)
  { arousal := clamp01 (belief.arousal + alpha_arousal * (target.arousal - belief.arousal))
    attention := clamp01 (belief.attention + alpha_attention * (target.attention - belief.attention))
    rhythm_alignment := clamp01 (belief.rhythm_alignment +
      alpha_rhythm * (target.rhythm_alignment - belief.rhythm_alignment))
    arousal_variance := belief.arousal_variance + PROCESS_NOISE * dt
    attention_variance := belief.attention_variance + PROCESS_NOISE * dt
    rhythm_variance := belief.rhythm_variance + PROCESS_NOISE * dt
    prediction_error := 0
    confidence := 0 }

/-- The `correct` from AdaptiveStateEstimator.ts: Kalman-style arousal correction
from heart rate, attention/rhythm correction from the distraction context,
with the three point estimates re-clamped at the end. -/
def correct (predicted : BeliefState) (obs : Observation) (dt : ℝ) : BeliefState :=
  let afterArousal :=
    match obs.heart_rate, obs.hr_confidence with
    | some hr, some hc =>
        if hc > 0.5 then
          let normalized_hr := clamp01 ((hr - 50) / 70)
          let K_arousal := predicted.arousal_variance /
            (predicted.arousal_variance + MEASUREMENT_NOISE_HR)
          let innovation := normalized_hr - predicted.arousal
          { predicted with
            arousal := predicted.arousal + K_arousal * innovation
            arousal_variance := (1 - K_arousal) * predicted.arousal_variance }
        else predicted
    | _, _ => predicted
  let isDistracted :=
    obs.user_interaction = some .pause ∨ obs.visibilty_state = .hidden
  let corrected :=
    if isDistracted then
      let K_attention := predicted.attention_variance /
        (predicted.attention_variance + MEASUREMENT_NOISE_CONTEXT)
      let innovation := 0.1 - predicted.attention
      { afterArousal with
        attention := predicted.attention + K_attention * innovation
        attention_variance := (1 - K_attention) * predicted.attention_variance
        rhythm_alignment := max 0 (afterArousal.rhythm_alignment - 0.5 * dt) }
    else
      { afterArousal with
        attention := min 1 (afterArousal.attention + 0.15 * dt)
        attention_variance := max 0.05 (afterArousal.attention_variance - 0.02 * dt)
        rhythm_alignment := min 1 (afterArousal.rhythm_alignment + 0.1 * dt)
        rhythm_variance := max 0.05 (afterArousal.rhythm_variance - 0.01 * dt) }
  { corrected with
    arousal := clamp01 corrected.arousal
    attention := clamp01 corrected.attention
    rhythm_alignment := clamp01 corrected.rhythm_alignment }

/-- The `computePredictionError` from AdaptiveStateEstimator.ts. -/
def computePredictionError (target : TargetState) (state : BeliefState) : ℝ :=
  let error_arousal := (state.arousal - target.arousal) ^ 2
  let error_attention := (state.attention - target.attention) ^ 2
  let error_rhythm := (state.rhythm_alignment - target.rhythm_alignment) ^ 2
  Real.sqrt (0.4 * error_arousal + 0.3 * error_attention + 0.3 * error_rhythm)

/-- The `computeConfidence` from AdaptiveStateEstimator.ts.  `hr_confidence ?? 0.0`
is an `Option.getD`; the JS `sensor_quality || 1.0` falls back to `1.0` on the
falsy value `0`. -/
def computeConfidence (state : BeliefState) (obs : Observation) : ℝ :=
  let certainty := 1 - min 1 ((state.arousal_variance + state.attention_variance +
    state.rhythm_variance) / 3)
  let sensor_quality := obs.hr_confidence.getD 0
  let attention_stability := state.attention
  clamp01 ((certainty * (if sensor_quality = 0 then 1 else sensor_quality) *
    attention_stability) ^ ((1 : ℝ) / 3))

/-- The `AdaptiveStateEstimator.update`: predict, correct, then fill in the two
diagnostic fields. -/
def update (belief : BeliefState) (target : TargetState) (obs : Observation)
    (dt : ℝ) : BeliefState :=
  let predicted := predict belief target dt
  let corrected := correct predicted obs dt
  { corrected with
    prediction_error := computePredictionError target corrected
    confidence := computeConfidence corrected obs }

/-! ### Session-completion safety policy (settingsStore, `registerSessionComplete`) -/

/-- One day in milliseconds: `24 * 60 * 60 * 1000`. -/
def DAY_MS : ℚ := 24 * 60 * 60 * 1000

/-- The safety-registry slice of `registerSessionComplete` from the settings
store: classify the session, update the pattern's profile (creating a fresh
one when absent), run the circuit breaker, and cap `resonance_history`.
`Date.now()` is `now`; `kernelState.belief.prediction_error` is the
`predictionError` argument. -/
def updateSafetyProfile (existing : Option SafetyProfile) (patternId : String)
    (durationSec : ℚ) (predictionError : ℝ) (now : ℚ) : SafetyProfile :=
  let record := existing.getD ⟨patternId, 0, 0, 0, []⟩
  let isSuccess := durationSec > 45 ∧ predictionError < 0.5
  let afterOutcome : SafetyProfile :=
    if isSuccess then
      { record with resonance_history := record.resonance_history ++ [1] }
    else
      let punished :=
        { record with
          resonance_history := record.resonance_history ++ [0]
          cummulative_stress_score := record.cummulative_stress_score + 1 }
      if punished.cummulative_stress_score > 5 then
        { punished with safety_lock_until := now + DAY_MS, cummulative_stress_score := 0 }
      else punished
  if afterOutcome.resonance_history.length > 5 then
    { afterOutcome with resonance_history := afterOutcome.resonance_history.drop 1 }
  else afterOutcome

/-- The registry written back by `registerSessionComplete` and pushed to the
kernel via `loadSafetyRegistry`. -/
def registerSessionCompleteRegistry (registry : SafetyRegistry) (patternId : String)
    (durationSec : ℚ) (predictionError : ℝ) (now : ℚ) : SafetyRegistry :=
  fun key =>
    if key = patternId then
      some (updateSafetyProfile (registry patternId) patternId durationSec predictionError now)
    else registry key

/-- Modelled from the spec claim C6 (not from the source): the claimed
confidence, whose sensor-quality factor is `hr_confidence` whenever the field
is present — including when it equals `0` — and `1.0` only when it is absent. -/
def computeConfidenceClaimed (state : BeliefState) (obs : Observation) : ℝ :=
  let certainty := 1 - min 1 ((state.arousal_variance + state.attention_variance +
    state.rhythm_variance) / 3)
  let sensor_quality : ℝ :=
    match obs.hr_confidence with
    | some c => c
    | none => 1
  clamp01 ((certainty * sensor_quality * state.attention) ^ ((1 : ℝ) / 3))

/-- Sensor-quality factor actually used by `computeConfidence`: the JS
expression `(obs.hr_confidence ?? 0.0) || 1.0`. -/
def sensorQualityFactor (obs : Observation) : ℝ :=
  match obs.hr_confidence with
  | some c => if c = 0 then 1 else c
  | none => 1

/-- Resonance-history cap: the source's "keep history short" step, pushing out
the oldest entry (`Array.shift`) when more than 5 entries are held. -/
def capHistory (l : List ℚ) : List ℚ := if l.length > 5 then l.drop 1 else l

end

/-! ### Helper lemmas -/

theorem clamp01_nonneg (v : ℝ) : 0 ≤ clamp01 v := le_max_left 0 _

theorem clamp01_le_one (v : ℝ) : clamp01 v ≤ 1 := max_le zero_le_one (min_le_left 1 v)

theorem update_arousal_clamped (b : BeliefState) (t : TargetState) (obs : Observation)
    (dt : ℝ) : ∃ v, (update b t obs dt).arousal = clamp01 v := ⟨_, rfl⟩

theorem update_attention_clamped (b : BeliefState) (t : TargetState) (obs : Observation)
    (dt : ℝ) : ∃ v, (update b t obs dt).attention = clamp01 v := ⟨_, rfl⟩

theorem update_rhythm_clamped (b : BeliefState) (t : TargetState) (obs : Observation)
    (dt : ℝ) : ∃ v, (update b t obs dt).rhythm_alignment = clamp01 v := ⟨_, rfl⟩

theorem update_confidence_clamped (b : BeliefState) (t : TargetState) (obs : Observation)
    (dt : ℝ) : ∃ v, (update b t obs dt).confidence = clamp01 v := ⟨_, rfl⟩

theorem update_prediction_error_eq (b : BeliefState) (t : TargetState) (obs : Observation)
    (dt : ℝ) :
    (update b t obs dt).prediction_error =
      computePredictionError t (correct (predict b t dt) obs dt) := rfl

theorem update_arousal_eq_correct (b : BeliefState) (t : TargetState) (obs : Observation)
    (dt : ℝ) : (update b t obs dt).arousal = (correct (predict b t dt) obs dt).arousal := rfl

theorem update_attention_eq_correct (b : BeliefState) (t : TargetState) (obs : Observation)
    (dt : ℝ) :
    (update b t obs dt).attention = (correct (predict b t dt) obs dt).attention := rfl

theorem update_rhythm_eq_correct (b : BeliefState) (t : TargetState) (obs : Observation)
    (dt : ℝ) :
    (update b t obs dt).rhythm_alignment =
      (correct (predict b t dt) obs dt).rhythm_alignment := rfl

theorem computePredictionError_nonneg (t : TargetState) (st : BeliefState) :
    0 ≤ computePredictionError t st := Real.sqrt_nonneg _

/-! ### C4 -/

/-- C4: every belief returned by the estimator's `update` — for any prior
belief, any target, any observation and any `dt` — has `arousal`, `attention`,
`rhythm_alignment` and `confidence` in `[0,1]` (the three point estimates and
the confidence being re-clamped on every update) and `prediction_error ≥ 0`. -/
theorem estimator_update_bounds (b : BeliefState) (t : TargetState) (obs : Observation)
    (dt : ℝ) :
    0 ≤ (update b t obs dt).arousal ∧ (update b t obs dt).arousal ≤ 1 ∧
    0 ≤ (update b t obs dt).attention ∧ (update b t obs dt).attention ≤ 1 ∧
    0 ≤ (update b t obs dt).rhythm_alignment ∧ (update b t obs dt).rhythm_alignment ≤ 1 ∧
    0 ≤ (update b t obs dt).confidence ∧ (update b t obs dt).confidence ≤ 1 ∧
    0 ≤ (update b t obs dt).prediction_error := by
  obtain ⟨v1, h1⟩ := update_arousal_clamped b t obs dt
  obtain ⟨v2, h2⟩ := update_attention_clamped b t obs dt
  obtain ⟨v3, h3⟩ := update_rhythm_clamped b t obs dt
  obtain ⟨v4, h4⟩ := update_confidence_clamped b t obs dt
  rw [h1, h2, h3, h4, update_prediction_error_eq]
  exact ⟨clamp01_nonneg v1, clamp01_le_one v1, clamp01_nonneg v2, clamp01_le_one v2,
    clamp01_nonneg v3, clamp01_le_one v3, clamp01_nonneg v4, clamp01_le_one v4,
    computePredictionError_nonneg _ _⟩

/-! ### C6 -/

/-- C6 counterexample: with all variances `0`, attention `1`, and an
observation carrying `hr_confidence = 0`, the code computes confidence `1`
(the falsy `0` falls back to sensor quality `1.0`), while the claim demands
the sensor-quality factor `0` and hence confidence `0`. -/
theorem confidence_zero_hr_confidence_counterexample :
    computeConfidence ⟨0.5, 1, 0.5, 0, 0, 0, 0, 0⟩ ⟨0, 0, none, .visible, none, some 0⟩ = 1 ∧
    computeConfidenceClaimed ⟨0.5, 1, 0.5, 0, 0, 0, 0, 0⟩
      ⟨0, 0, none, .visible, none, some 0⟩ = 0 ∧
    (1 : ℝ) ≠ 0 := by
  refine ⟨?_, ?_, one_ne_zero⟩
  · show clamp01 (((1 - min 1 ((0 + 0 + 0) / 3)) *
      (if (0 : ℝ) = 0 then 1 else 0) * 1) ^ ((1 : ℝ) / 3)) = 1
    norm_num [clamp01]
  · show clamp01 (((1 - min 1 ((0 + 0 + 0) / 3)) * (0 : ℝ) * 1) ^ ((1 : ℝ) / 3)) = 0
    norm_num [clamp01, Real.zero_rpow]

/-- C6 (amended): the estimator's confidence equals the clamped-to-`[0,1]`
cube root of the product of (1 minus the average variance, capped at 1), the
sensor-quality factor, and the current attention — where the sensor-quality
factor is `hr_confidence` when present and nonzero, and `1.0` when the field
is absent or equal to `0`. -/
theorem confidence_geometric_mean_amended (state : BeliefState) (obs : Observation) :
    computeConfidence state obs =
      clamp01 (((1 - min 1 ((state.arousal_variance + state.attention_variance +
        state.rhythm_variance) / 3)) * sensorQualityFactor obs * state.attention) ^
        ((1 : ℝ) / 3)) := by
  cases h : obs.hr_confidence <;> simp [computeConfidence, sensorQualityFactor, h]

/-! ### C8 -/

theorem PROTOCOL_TARGETS_cases (key : String) :
    PROTOCOL_TARGETS key = ⟨0.2, 0.5, 0.8⟩ ∨ PROTOCOL_TARGETS key = ⟨0.4, 0.7, 0.9⟩ ∨
    PROTOCOL_TARGETS key = ⟨0.7, 0.8, 0.6⟩ ∨ PROTOCOL_TARGETS key = ⟨0.5, 0.6, 0.7⟩ := by
  unfold PROTOCOL_TARGETS
  split <;> simp

theorem computePredictionError_lt_threshold (t : TargetState) (st : BeliefState)
    (ht : t = ⟨0.2, 0.5, 0.8⟩ ∨ t = ⟨0.4, 0.7, 0.9⟩ ∨ t = ⟨0.7, 0.8, 0.6⟩ ∨
      t = ⟨0.5, 0.6, 0.7⟩)
    (ha0 : 0 ≤ st.arousal) (ha1 : st.arousal ≤ 1)
    (hb0 : 0 ≤ st.attention) (hb1 : st.attention ≤ 1)
    (hc0 : 0 ≤ st.rhythm_alignment) (hc1 : st.rhythm_alignment ≤ 1) :
    computePredictionError t st < 0.95 := by
  have hprod_a : 0 ≤ (1 - st.arousal) * st.arousal :=
    mul_nonneg (by linarith) ha0
  have hprod_b : 0 ≤ (1 - st.attention) * st.attention :=
    mul_nonneg (by linarith) hb0
  have hprod_c : 0 ≤ (1 - st.rhythm_alignment) * st.rhythm_alignment :=
    mul_nonneg (by linarith) hc0
  show Real.sqrt _ < 0.95
  rw [Real.sqrt_lt' (by norm_num : (0 : ℝ) < 0.95)]
  rcases ht with h | h | h | h <;> subst h <;> simp only [computePredictionError] <;>
    nlinarith [hprod_a, hprod_b, hprod_c]

/-- C8: for every prior belief, observation, `dt`, and protocol target (any
key of `PROTOCOL_TARGETS`, i.e. any of the four target vectors), the belief
produced by the estimator's `update` has `prediction_error < 0.95`; hence the
safety guard's emergency-halt rule never fires on such a `BELIEF_UPDATE`, which
passes through the guard unchanged for every state, and the rule is reachable
only by externally crafted `BELIEF_UPDATE` events. -/
theorem estimator_never_trips_emergency_halt (key : String) (b : BeliefState)
    (obs : Observation) (dt : ℝ) (s : RuntimeState) (ts now : ℚ) :
    (update b (PROTOCOL_TARGETS key) obs dt).prediction_error < 0.95 ∧
    defaultSafetyGuard now
        (.BELIEF_UPDATE (update b (PROTOCOL_TARGETS key) obs dt) ts) s =
      some (.BELIEF_UPDATE (update b (PROTOCOL_TARGETS key) obs dt) ts) := by
  obtain ⟨v1, h1⟩ := update_arousal_clamped b (PROTOCOL_TARGETS key) obs dt
  obtain ⟨v2, h2⟩ := update_attention_clamped b (PROTOCOL_TARGETS key) obs dt
  obtain ⟨v3, h3⟩ := update_rhythm_clamped b (PROTOCOL_TARGETS key) obs dt
  have hpe : (update b (PROTOCOL_TARGETS key) obs dt).prediction_error < 0.95 := by
    rw [update_prediction_error_eq]
    refine computePredictionError_lt_threshold _ _ (PROTOCOL_TARGETS_cases key) ?_ ?_ ?_ ?_ ?_ ?_
    · rw [← update_arousal_eq_correct, h1]; exact clamp01_nonneg v1
    · rw [← update_arousal_eq_correct, h1]; exact clamp01_le_one v1
    · rw [← update_attention_eq_correct, h2]; exact clamp01_nonneg v2
    · rw [← update_attention_eq_correct, h2]; exact clamp01_le_one v2
    · rw [← update_rhythm_eq_correct, h3]; exact clamp01_nonneg v3
    · rw [← update_rhythm_eq_correct, h3]; exact clamp01_le_one v3
  refine ⟨hpe, ?_⟩
  show (if _ ∧ _ then _ else _) = _
  rw [if_neg]
  rintro ⟨hgt, -⟩
  exact absurd (hgt.trans hpe) (lt_irrefl _)

/-! ### Kernel dispatch helpers -/

theorem defaultSafetyGuard_isSome (now : ℚ) (e : KernelEvent) (s : RuntimeState) :
    ∃ g, defaultSafetyGuard now e s = some g := by
  cases e <;> unfold defaultSafetyGuard <;> repeat' split
  all_goals exact ⟨_, rfl⟩

theorem dispatch_state_of_guard (now : ℚ) (k : Kernel) (e g : KernelEvent)
    (hg : defaultSafetyGuard now e k.state = some g) :
    (dispatch now k e).state = computeDerivedFields now (reduce k.state g) := by
  simp [dispatch, hg]

theorem dispatch_log_of_guard (now : ℚ) (k : Kernel) (e g : KernelEvent)
    (hg : defaultSafetyGuard now e k.state = some g) :
    (dispatch now k e).eventLog =
      if (k.eventLog ++ [g]).length > MAX_LOG_SIZE then (k.eventLog ++ [g]).drop 1
      else k.eventLog ++ [g] := by
  simp [dispatch, hg]

/-! ### C1 -/

/-- C1: whenever the safety registry maps the target pattern id to a profile
whose `safety_lock_until` is strictly greater than the current time,
dispatching `LOAD_PROTOCOL` for that pattern leaves `state.pattern` unchanged,
drives `state.status` to `SAFETY_LOCK`, and the last event in the log is a
`SAFETY_INTERDICTION` with riskLevel `0.8` and action `PATTERN_LOCKED`; the
`LOAD_PROTOCOL` event itself is never appended to the log (nor reduced). -/
theorem load_protocol_locked_interdiction (k : Kernel) (pid : String)
    (profile : SafetyProfile) (ts now : ℚ)
    (hreg : k.state.safetyRegistry pid = some profile)
    (hlock : profile.safety_lock_until > now) :
    (dispatch now k (.LOAD_PROTOCOL pid ts)).state.pattern = k.state.pattern ∧
    (dispatch now k (.LOAD_PROTOCOL pid ts)).state.status = .SAFETY_LOCK ∧
    (dispatch now k (.LOAD_PROTOCOL pid ts)).eventLog.getLast? =
      some (.SAFETY_INTERDICTION 0.8 "PATTERN_LOCKED" now) ∧
    (KernelEvent.LOAD_PROTOCOL pid ts ∉ k.eventLog →
      KernelEvent.LOAD_PROTOCOL pid ts ∉ (dispatch now k (.LOAD_PROTOCOL pid ts)).eventLog) := by
  have hg : defaultSafetyGuard now (.LOAD_PROTOCOL pid ts) k.state =
      some (.SAFETY_INTERDICTION 0.8 "PATTERN_LOCKED" now) := by
    simp [defaultSafetyGuard, hreg, hlock]
  have hstate := dispatch_state_of_guard now k _ _ hg
  have hlog := dispatch_log_of_guard now k _ _ hg
  refine ⟨?_, ?_, ?_, ?_⟩
  · rw [hstate]; simp [reduce, computeDerivedFields]
  · rw [hstate]; simp [reduce, computeDerivedFields]
  · rw [hlog]; split
    · next hlen =>
        have h1 : (1 : ℕ) ≤ k.eventLog.length := by
          simp [MAX_LOG_SIZE] at hlen; omega
        rw [List.drop_append_of_le_length h1, List.getLast?_concat]
    · exact List.getLast?_concat _
  · intro hnot
    rw [hlog]; split
    · intro hmem
      rcases List.mem_append.1 (List.mem_of_mem_drop hmem) with h | h
      · exact hnot h
      · simp at h
    · intro hmem
      rcases List.mem_append.1 hmem with h | h
      · exact hnot h
      · simp at h

/-- C1 witness: a kernel whose registry locks pattern `4-7-8` until time
`2000`; dispatching `LOAD_PROTOCOL` at time `1000` leaves the pattern unset,
locks the kernel, and logs the `PATTERN_LOCKED` interdiction. -/
theorem load_protocol_locked_interdiction_witness :
    (dispatch 1000
        ⟨{ createInitialState 0 with
            safetyRegistry := fun key =>
              if key = "4-7-8" then some ⟨"4-7-8", 0, 0, 2000, []⟩ else none },
          [], []⟩
        (.LOAD_PROTOCOL "4-7-8" 999)).state.pattern =
      ({ createInitialState 0 with
          safetyRegistry := fun key =>
            if key = "4-7-8" then some ⟨"4-7-8", 0, 0, 2000, []⟩ else none } :
        RuntimeState).pattern ∧
    (dispatch 1000
        ⟨{ createInitialState 0 with
            safetyRegistry := fun key =>
              if key = "4-7-8" then some ⟨"4-7-8", 0, 0, 2000, []⟩ else none },
          [], []⟩
        (.LOAD_PROTOCOL "4-7-8" 999)).state.status = .SAFETY_LOCK ∧
    (dispatch 1000
        ⟨{ createInitialState 0 with
            safetyRegistry := fun key =>
              if key = "4-7-8" then some ⟨"4-7-8", 0, 0, 2000, []⟩ else none },
          [], []⟩
        (.LOAD_PROTOCOL "4-7-8" 999)).eventLog.getLast? =
      some (.SAFETY_INTERDICTION 0.8 "PATTERN_LOCKED" 1000) := by
  have h := load_protocol_locked_interdiction
    ⟨{ createInitialState 0 with
        safetyRegistry := fun key =>
          if key = "4-7-8" then some ⟨"4-7-8", 0, 0, 2000, []⟩ else none },
      [], []⟩
    "4-7-8" ⟨"4-7-8", 0, 0, 2000, []⟩ 999 1000 (by simp) (by norm_num)
  exact ⟨h.1, h.2.1, h.2.2.1⟩

/-! ### C2 -/

/-- C2 counterexample: a session paused (via `INTERRUPTION`) at time `1000`
with `phaseStartTime = 500`; a `BELIEF_UPDATE` reduced at time `2000` while
paused bumps `lastUpdateTimestamp`, so `RESUME` at time `6000` shifts
`phaseStartTime` by `4000` (to `4500`), not by the full pause duration
`5000` (to `5500`) that the claim requires regardless of intervening
events. -/
theorem resume_pause_duration_counterexample :
    (reduce { createInitialState 0 with status := .RUNNING, phaseStartTime := 500 }
        (.INTERRUPTION .pause 1000)).status = .PAUSED ∧
    (reduce (reduce (reduce
          { createInitialState 0 with status := .RUNNING, phaseStartTime := 500 }
          (.INTERRUPTION .pause 1000))
        (.BELIEF_UPDATE ⟨0.5, 0.5, 0, 0.2, 0.2, 0.3, 0, 0⟩ 2000))
      (.RESUME 6000)).phaseStartTime = 4500 ∧
    (4500 : ℚ) ≠ 500 + (6000 - 1000) := by
  refine ⟨?_, ?_, by norm_num⟩
  · norm_num [reduce, createInitialState]
  · norm_num [reduce, createInitialState]

/-- C2 (amended): reducing `RESUME` from a `PAUSED` state sets the status to
`RUNNING` and shifts `phaseStartTime` forward by `resumeTimestamp −
lastUpdateTimestamp` — the timestamp of the most recently reduced event, which
equals the pause timestamp only when no other event was reduced while paused —
so the phase-elapsed time immediately after resume equals the phase-elapsed
time as of the last reduced event. -/
theorem resume_shifts_phase_start_by_last_update (s : RuntimeState) (ts : ℚ)
    (h : s.status = .PAUSED) :
    reduce s (.RESUME ts) =
      { s with
        status := .RUNNING
        phaseStartTime := s.phaseStartTime + (ts - s.lastUpdateTimestamp)
        lastUpdateTimestamp := ts } ∧
    ts - (reduce s (.RESUME ts)).phaseStartTime =
      s.lastUpdateTimestamp - s.phaseStartTime := by
  have hr : reduce s (.RESUME ts) =
      { s with
        status := .RUNNING
        phaseStartTime := s.phaseStartTime + (ts - s.lastUpdateTimestamp)
        lastUpdateTimestamp := ts } := by
    simp [reduce, h]
  refine ⟨hr, ?_⟩
  rw [hr]
  ring_nf

/-- C2 amended-claim witness: resuming at `6000` a state paused with
`lastUpdateTimestamp = 1000` and `phaseStartTime = 500` leaves the
phase-elapsed offset at `1000 − 500`. -/
theorem resume_shifts_phase_start_witness :
    ({ createInitialState 0 with
        status := .PAUSED
        phaseStartTime := 500
        lastUpdateTimestamp := 1000 } : RuntimeState).status = .PAUSED ∧
    6000 - (reduce { createInitialState 0 with
        status := .PAUSED
        phaseStartTime := 500
        lastUpdateTimestamp := 1000 } (.RESUME 6000)).phaseStartTime = 1000 - 500 :=
  ⟨rfl, (resume_shifts_phase_start_by_last_update _ 6000 rfl).2⟩

/-! ### C5 -/

/-- C5 counterexample: a `PAUSED` state with `sessionStartTime = 1000`;
dispatching a `BELIEF_UPDATE` at time `3000` commits a state that is still
`PAUSED` yet has `sessionDuration = 2`, not `0` — the derived session duration
is gated on `sessionStartTime > 0`, not on the status being `RUNNING`. -/
theorem derived_fields_paused_counterexample :
    (dispatch 3000
        ⟨{ createInitialState 0 with status := .PAUSED, sessionStartTime := 1000 }, [], []⟩
        (.BELIEF_UPDATE ⟨0.5, 0.5, 0, 0.2, 0.2, 0.3, 0, 0⟩ 3000)).state.status = .PAUSED ∧
    (dispatch 3000
        ⟨{ createInitialState 0 with status := .PAUSED, sessionStartTime := 1000 }, [], []⟩
        (.BELIEF_UPDATE ⟨0.5, 0.5, 0, 0.2, 0.2, 0.3, 0, 0⟩ 3000)).state.sessionDuration = 2 ∧
    (2 : ℚ) ≠ 0 := by
  refine ⟨?_, ?_, by norm_num⟩ <;>
    norm_num [dispatch, defaultSafetyGuard, reduce, computeDerivedFields, createInitialState]

/-- C5 (amended): after every dispatch the committed state's `phaseElapsed` is
wall-clock time relative to `phaseStartTime` when `RUNNING` and `0` otherwise,
while `sessionDuration` is wall-clock time relative to `sessionStartTime`
whenever `sessionStartTime > 0` — regardless of status — and `0` only when no
session start is stamped (`sessionStartTime ≤ 0`). -/
theorem derived_fields_after_dispatch (now : ℚ) (k : Kernel) (e : KernelEvent) :
    ((dispatch now k e).state.status ≠ .RUNNING →
      (dispatch now k e).state.phaseElapsed = 0) ∧
    ((dispatch now k e).state.status = .RUNNING →
      (dispatch now k e).state.phaseElapsed =
        max 0 ((now - (dispatch now k e).state.phaseStartTime) / 1000)) ∧
    ((dispatch now k e).state.sessionStartTime ≤ 0 →
      (dispatch now k e).state.sessionDuration = 0) ∧
    (0 < (dispatch now k e).state.sessionStartTime →
      (dispatch now k e).state.sessionDuration =
        max 0 ((now - (dispatch now k e).state.sessionStartTime) / 1000)) := by
  obtain ⟨g, hg⟩ := defaultSafetyGuard_isSome now e k.state
  rw [dispatch_state_of_guard now k e g hg]
  simp only [computeDerivedFields]
  refine ⟨fun h => ?_, fun h => ?_, fun h => ?_, fun h => ?_⟩ <;> simp_all

/-- C5 amended-claim witness: dispatching `HALT` on a freshly booted kernel
commits zero derived fields. -/
theorem derived_fields_after_dispatch_witness :
    (dispatch 5 ⟨createInitialState 0, [], []⟩ (.HALT "cleanup" 5)).state.phaseElapsed = 0 ∧
    (dispatch 5 ⟨createInitialState 0, [], []⟩ (.HALT "cleanup" 5)).state.sessionDuration = 0 := by
  have h := derived_fields_after_dispatch 5 ⟨createInitialState 0, [], []⟩ (.HALT "cleanup" 5)
  refine ⟨h.1 ?_, h.2.2.1 ?_⟩
  · simp [dispatch, defaultSafetyGuard, reduce, computeDerivedFields, createInitialState]
  · simp [dispatch, defaultSafetyGuard, reduce, computeDerivedFields, createInitialState]

/-! ### C9 -/

/-- C9: with a pattern bound and the status anything but `SAFETY_LOCK`,
dispatching `START_SESSION` sets the status to `RUNNING` and stamps both
`sessionStartTime` and `phaseStartTime` with the event's timestamp — in
particular a `START_SESSION` while already `RUNNING` or `PAUSED` restarts the
session and phase clocks instead of being ignored. -/
theorem start_session_restamps_clocks (k : Kernel) (p : BreathPattern) (ts now : ℚ)
    (hp : k.state.pattern = some p) (hs : k.state.status ≠ .SAFETY_LOCK) :
    (dispatch now k (.START_SESSION ts)).state.status = .RUNNING ∧
    (dispatch now k (.START_SESSION ts)).state.sessionStartTime = ts ∧
    (dispatch now k (.START_SESSION ts)).state.phaseStartTime = ts := by
  have hg : defaultSafetyGuard now (.START_SESSION ts) k.state = some (.START_SESSION ts) := by
    simp [defaultSafetyGuard, hs]
  rw [dispatch_state_of_guard now k _ _ hg]
  simp [reduce, hp, computeDerivedFields]

/-- C9 witness: a paused kernel with the `box` pattern bound; `START_SESSION`
at time `777` restarts both clocks. -/
theorem start_session_restamps_clocks_witness :
    (dispatch 777
        ⟨{ createInitialState 0 with
            pattern := BREATHING_PATTERNS "box"
            status := .PAUSED }, [], []⟩
        (.START_SESSION 777)).state.status = .RUNNING ∧
    (dispatch 777
        ⟨{ createInitialState 0 with
            pattern := BREATHING_PATTERNS "box"
            status := .PAUSED }, [], []⟩
        (.START_SESSION 777)).state.sessionStartTime = 777 ∧
    (dispatch 777
        ⟨{ createInitialState 0 with
            pattern := BREATHING_PATTERNS "box"
            status := .PAUSED }, [], []⟩
        (.START_SESSION 777)).state.phaseStartTime = 777 :=
  start_session_restamps_clocks _ ⟨"box", mkTimings 4 4 4 4, 6, 1⟩ 777 777 rfl (by simp)

/-! ### C10 -/

/-- C10: `subscribe` synchronously invokes the callback exactly once, with the
current state snapshot, and the returned unsubscribe closure removes the
callback from the subscriber set, after which notifications never reach it. -/
theorem subscribe_invokes_once_and_unsubscribes (k : Kernel) (c : ℕ) :
    (subscribe k c).2 = [(c, k.state)] ∧
    ∀ st : RuntimeState, (c, st) ∉ notifyCalls (runUnsubscribe (subscribe k c).1 c) := by
  refine ⟨rfl, fun st hmem => ?_⟩
  simp only [notifyCalls, runUnsubscribe, subscribe, setDelete, List.mem_map,
    List.mem_filter] at hmem
  obtain ⟨x, ⟨-, hx⟩, hpair⟩ := hmem
  have : x = c := congrArg Prod.fst hpair
  simp [this] at hx

/-- C10 witness: subscribing callback `7` on a fresh kernel fires it once with
the current state; after unsubscribing, a notification does not reach it. -/
theorem subscribe_invokes_once_witness :
    (subscribe ⟨createInitialState 0, [], []⟩ 7).2 = [(7, createInitialState 0)] ∧
    (7, createInitialState 0) ∉
      notifyCalls (runUnsubscribe (subscribe ⟨createInitialState 0, [], []⟩ 7).1 7) :=
  ⟨(subscribe_invokes_once_and_unsubscribes ⟨createInitialState 0, [], []⟩ 7).1,
   (subscribe_invokes_once_and_unsubscribes ⟨createInitialState 0, [], []⟩ 7).2
     (createInitialState 0)⟩

/-! ### Session-completion helpers -/

theorem updateSafetyProfile_eq (ex : SafetyProfile) (pid : String) (dur : ℚ) (err : ℝ)
    (now : ℚ) :
    updateSafetyProfile (some ex) pid dur err now =
      if dur > 45 ∧ err < 0.5 then
        { ex with resonance_history := capHistory (ex.resonance_history ++ [1]) }
      else if ex.cummulative_stress_score + 1 > 5 then
        { ex with
          resonance_history := capHistory (ex.resonance_history ++ [0])
          cummulative_stress_score := 0
          safety_lock_until := now + DAY_MS }
      else
        { ex with
          resonance_history := capHistory (ex.resonance_history ++ [0])
          cummulative_stress_score := ex.cummulative_stress_score + 1 } := by
  by_cases hs : dur > 45 ∧ err < 0.5
  · simp only [updateSafetyProfile, Option.getD_some, if_pos hs, capHistory,
      List.length_append]
    split
    · rfl
    · rfl
  · by_cases ht : ex.cummulative_stress_score + 1 > 5
    · simp only [updateSafetyProfile, Option.getD_some, if_neg hs, if_pos ht, capHistory,
        List.length_append]
      split
      · rfl
      · rfl
    · simp only [updateSafetyProfile, Option.getD_some, if_neg hs, if_neg ht, capHistory,
        List.length_append]
      split
      · rfl
      · rfl

/-! ### C3 -/

/-- C3: a completion is a success iff the duration exceeds 45 seconds and the
final prediction error is below 0.5; success pushes `1.0` onto that pattern's
resonance history leaving the stress score and lock untouched, failure pushes
`0.0` and increments the cumulative stress score, and when the incremented
score exceeds 5 the breaker trips — `safety_lock_until := now + 24h`, score
reset to 0; six consecutive adverse completions from a fresh profile leave the
lock unset through the fifth and trip the breaker exactly once, on the
sixth. -/
theorem session_completion_circuit_breaker (ex : SafetyProfile) (pid : String) (dur : ℚ)
    (err : ℝ) (now : ℚ) :
    ((dur > 45 ∧ err < 0.5) →
      updateSafetyProfile (some ex) pid dur err now =
        { ex with resonance_history := capHistory (ex.resonance_history ++ [1]) }) ∧
    (¬(dur > 45 ∧ err < 0.5) → ex.cummulative_stress_score + 1 > 5 →
      updateSafetyProfile (some ex) pid dur err now =
        { ex with
          resonance_history := capHistory (ex.resonance_history ++ [0])
          cummulative_stress_score := 0
          safety_lock_until := now + DAY_MS }) ∧
    (¬(dur > 45 ∧ err < 0.5) → ¬(ex.cummulative_stress_score + 1 > 5) →
      updateSafetyProfile (some ex) pid dur err now =
        { ex with
          resonance_history := capHistory (ex.resonance_history ++ [0])
          cummulative_stress_score := ex.cummulative_stress_score + 1 }) ∧
    ((updateSafetyProfile (some ⟨pid, 0, 0, 0, []⟩) pid 0 1 now).safety_lock_until = 0 ∧
      (updateSafetyProfile (some (updateSafetyProfile (some ⟨pid, 0, 0, 0, []⟩) pid 0 1 now))
          pid 0 1 now).safety_lock_until = 0 ∧
      (updateSafetyProfile (some (updateSafetyProfile (some
          (updateSafetyProfile (some ⟨pid, 0, 0, 0, []⟩) pid 0 1 now)) pid 0 1 now))
          pid 0 1 now).safety_lock_until = 0 ∧
      (updateSafetyProfile (some (updateSafetyProfile (some (updateSafetyProfile (some
          (updateSafetyProfile (some ⟨pid, 0, 0, 0, []⟩) pid 0 1 now)) pid 0 1 now))
          pid 0 1 now)) pid 0 1 now).safety_lock_until = 0 ∧
      updateSafetyProfile (some (updateSafetyProfile (some (updateSafetyProfile (some
          (updateSafetyProfile (some (updateSafetyProfile (some ⟨pid, 0, 0, 0, []⟩)
          pid 0 1 now)) pid 0 1 now)) pid 0 1 now)) pid 0 1 now)) pid 0 1 now =
        ⟨pid, 5, 0, 0, [0, 0, 0, 0, 0]⟩ ∧
      updateSafetyProfile (some (updateSafetyProfile (some (updateSafetyProfile (some
          (updateSafetyProfile (some (updateSafetyProfile (some (updateSafetyProfile (some
          ⟨pid, 0, 0, 0, []⟩) pid 0 1 now)) pid 0 1 now)) pid 0 1 now)) pid 0 1 now))
          pid 0 1 now)) pid 0 1 now =
        ⟨pid, 0, 0, now + DAY_MS, [0, 0, 0, 0, 0]⟩) := by
  have hadv : ¬((0 : ℚ) > 45 ∧ (1 : ℝ) < 0.5) := by norm_num
  have e1 : updateSafetyProfile (some ⟨pid, 0, 0, 0, []⟩) pid 0 1 now =
      ⟨pid, 1, 0, 0, [0]⟩ := by
    rw [updateSafetyProfile_eq, if_neg hadv, if_neg (by norm_num)]
    norm_num [capHistory]
  have e2 : updateSafetyProfile (some (⟨pid, 1, 0, 0, [0]⟩ : SafetyProfile)) pid 0 1 now =
      ⟨pid, 2, 0, 0, [0, 0]⟩ := by
    rw [updateSafetyProfile_eq, if_neg hadv, if_neg (by norm_num)]
    norm_num [capHistory]
  have e3 : updateSafetyProfile (some (⟨pid, 2, 0, 0, [0, 0]⟩ : SafetyProfile)) pid 0 1 now =
      ⟨pid, 3, 0, 0, [0, 0, 0]⟩ := by
    rw [updateSafetyProfile_eq, if_neg hadv, if_neg (by norm_num)]
    norm_num [capHistory]
  have e4 : updateSafetyProfile (some (⟨pid, 3, 0, 0, [0, 0, 0]⟩ : SafetyProfile))
      pid 0 1 now = ⟨pid, 4, 0, 0, [0, 0, 0, 0]⟩ := by
    rw [updateSafetyProfile_eq, if_neg hadv, if_neg (by norm_num)]
    norm_num [capHistory]
  have e5 : updateSafetyProfile (some (⟨pid, 4, 0, 0, [0, 0, 0, 0]⟩ : SafetyProfile))
      pid 0 1 now = ⟨pid, 5, 0, 0, [0, 0, 0, 0, 0]⟩ := by
    rw [updateSafetyProfile_eq, if_neg hadv, if_neg (by norm_num)]
    norm_num [capHistory]
  have e6 : updateSafetyProfile (some (⟨pid, 5, 0, 0, [0, 0, 0, 0, 0]⟩ : SafetyProfile))
      pid 0 1 now = ⟨pid, 0, 0, now + DAY_MS, [0, 0, 0, 0, 0]⟩ := by
    rw [updateSafetyProfile_eq, if_neg hadv, if_pos (by norm_num)]
    norm_num [capHistory]
  refine ⟨fun hs => ?_, fun hs ht => ?_, fun hs ht => ?_, ?_, ?_, ?_, ?_, ?_, ?_⟩
  · rw [updateSafetyProfile_eq, if_pos hs]
  · rw [updateSafetyProfile_eq, if_neg hs, if_pos ht]
  · rw [updateSafetyProfile_eq, if_neg hs, if_neg ht]
  · rw [e1]
  · rw [e1, e2]
  · rw [e1, e2, e3]
  · rw [e1, e2, e3, e4]
  · rw [e1, e2, e3, e4, e5]
  · rw [e1, e2, e3, e4, e5, e6]

/-- C3 witness: a successful completion (duration 46s, final prediction error
0) on a profile with stress score 2 and lock 7 pushes `1.0` and leaves the
stress score and lock untouched. -/
theorem session_completion_circuit_breaker_witness :
    ((46 : ℚ) > 45 ∧ (0 : ℝ) < 0.5) ∧
    updateSafetyProfile (some ⟨"box", 2, 0, 7, [1]⟩) "box" 46 0 0 =
      { (⟨"box", 2, 0, 7, [1]⟩ : SafetyProfile) with
        resonance_history := capHistory ([1] ++ [1]) } :=
  ⟨by norm_num,
   (session_completion_circuit_breaker ⟨"box", 2, 0, 7, [1]⟩ "box" 46 0 0).1 (by norm_num)⟩

/-! ### C7 -/

/-- C7: starting from a profile holding at most 5 resonance entries, a
session-completion update pushes the outcome and keeps exactly the most recent
5 entries, dropping the oldest first; concretely, pushing six outcomes
(one success then five failures) starting from an empty history leaves exactly
the last five, the oldest — the initial `1.0` — having been evicted. -/
theorem resonance_history_sliding_window (p : SafetyProfile) (pid : String) (dur : ℚ)
    (err : ℝ) (now : ℚ) (h : p.resonance_history.length ≤ 5) :
    (updateSafetyProfile (some p) pid dur err now).resonance_history =
      (p.resonance_history ++ (if dur > 45 ∧ err < 0.5 then [(1 : ℚ)] else [0])).drop
        (p.resonance_history.length + 1 - 5) ∧
    (updateSafetyProfile (some (updateSafetyProfile (some (updateSafetyProfile (some
        (updateSafetyProfile (some (updateSafetyProfile (some
        (updateSafetyProfile (some ⟨pid, 0, 0, 0, []⟩) pid 46 0 now)) pid 0 1 now))
        pid 0 1 now)) pid 0 1 now)) pid 0 1 now)) pid 0 1 now).resonance_history =
      [0, 0, 0, 0, 0] := by
  constructor
  · rw [updateSafetyProfile_eq]
    have hdropzero : p.resonance_history.length + 1 ≤ 5 →
        p.resonance_history.length + 1 - 5 = 0 := fun hle => by omega
    by_cases hs : dur > 45 ∧ err < 0.5
    · rw [if_pos hs, if_pos hs]
      simp only [capHistory, List.length_append, List.length_singleton]
      split
      · next hlen =>
          have : p.resonance_history.length + 1 - 5 = 1 := by omega
          rw [this]
      · next hlen =>
          rw [hdropzero (by omega), List.drop_zero]
    · rw [if_neg hs, if_neg hs]
      by_cases ht : p.cummulative_stress_score + 1 > 5
      · rw [if_pos ht]
        simp only [capHistory, List.length_append, List.length_singleton]
        split
        · next hlen =>
            have : p.resonance_history.length + 1 - 5 = 1 := by omega
            rw [this]
        · next hlen =>
            rw [hdropzero (by omega), List.drop_zero]
      · rw [if_neg ht]
        simp only [capHistory, List.length_append, List.length_singleton]
        split
        · next hlen =>
            have : p.resonance_history.length + 1 - 5 = 1 := by omega
            rw [this]
        · next hlen =>
            rw [hdropzero (by omega), List.drop_zero]
  · have hadv : ¬((0 : ℚ) > 45 ∧ (1 : ℝ) < 0.5) := by norm_num
    have g1 : updateSafetyProfile (some ⟨pid, 0, 0, 0, []⟩) pid 46 0 now =
        ⟨pid, 0, 0, 0, [1]⟩ := by
      rw [updateSafetyProfile_eq, if_pos (by norm_num)]
      norm_num [capHistory]
    have f1 : updateSafetyProfile (some (⟨pid, 0, 0, 0, [1]⟩ : SafetyProfile)) pid 0 1 now =
        ⟨pid, 1, 0, 0, [1, 0]⟩ := by
      rw [updateSafetyProfile_eq, if_neg hadv, if_neg (by norm_num)]
      norm_num [capHistory]
    have f2 : updateSafetyProfile (some (⟨pid, 1, 0, 0, [1, 0]⟩ : SafetyProfile))
        pid 0 1 now = ⟨pid, 2, 0, 0, [1, 0, 0]⟩ := by
      rw [updateSafetyProfile_eq, if_neg hadv, if_neg (by norm_num)]
      norm_num [capHistory]
    have f3 : updateSafetyProfile (some (⟨pid, 2, 0, 0, [1, 0, 0]⟩ : SafetyProfile))
        pid 0 1 now = ⟨pid, 3, 0, 0, [1, 0, 0, 0]⟩ := by
      rw [updateSafetyProfile_eq, if_neg hadv, if_neg (by norm_num)]
      norm_num [capHistory]
    have f4 : updateSafetyProfile (some (⟨pid, 3, 0, 0, [1, 0, 0, 0]⟩ : SafetyProfile))
        pid 0 1 now = ⟨pid, 4, 0, 0, [1, 0, 0, 0, 0]⟩ := by
      rw [updateSafetyProfile_eq, if_neg hadv, if_neg (by norm_num)]
      norm_num [capHistory]
    have f5 : updateSafetyProfile (some (⟨pid, 4, 0, 0, [1, 0, 0, 0, 0]⟩ : SafetyProfile))
        pid 0 1 now = ⟨pid, 5, 0, 0, [0, 0, 0, 0, 0]⟩ := by
      rw [updateSafetyProfile_eq, if_neg hadv, if_neg (by norm_num)]
      norm_num [capHistory]
    rw [g1, f1, f2, f3, f4, f5]

/-- C7 witness: pushing a success onto the full window `[0,1,0,1,0]` keeps the
most recent five entries `[1,0,1,0,1]`, the oldest having been dropped. -/
theorem resonance_history_sliding_window_witness :
    (updateSafetyProfile (some ⟨"box", 0, 0, 0, [0, 1, 0, 1, 0]⟩) "box" 46 0 0).resonance_history
      = [1, 0, 1, 0, 1] := by
  have h := (resonance_history_sliding_window ⟨"box", 0, 0, 0, [0, 1, 0, 1, 0]⟩ "box" 46 0 0
    (by norm_num)).1
  norm_num at h
  exact h

end ZenMaster
